import Mathlib

/-!
Shallow embedding of the promotional-offer engine of the saborly backend
(`src/models/offer.js` and `src/routes/offer.js`).  Money is modelled by `ℚ`,
timestamps by `Int` (epoch milliseconds), document ids by `Nat`.
-/

namespace Saborly

/-- Offer `type` enum (`src/models/offer.js`, schema field `type`). -/
inductive OfferType
  | percentage
  | fixedAmount
  | buyOneGetOne
  | freeDelivery
  | combo
deriving DecidableEq

/-- `deliveryTypes` enum values. -/
inductive DeliveryType
  | delivery
  | pickup
deriving DecidableEq

/-- One element of the `claimedDevices` array. -/
structure ClaimEntry where
  deviceId : String
  claimedAt : Int
  userId : Option Nat
deriving DecidableEq

/-- One element of the `usageHistory` array. -/
structure UsageEntry where
  user : Nat
  order : Nat
  deviceId : Option String
  discountAmount : ℚ
  platform : String
  usedAt : Int
deriving DecidableEq

/-- A combo line: `{foodItem, quantity}`. -/
structure ComboItem where
  foodItem : Nat
  quantity : Nat
deriving DecidableEq

/-- The offer document, restricted to the fields the engine reads or writes.
`maxDiscountAmount = none` models an absent field; JavaScript truthiness of a
present numeric field is modelled separately by `truthyAmount`. -/
structure Offer where
  title : String
  description : String
  offerType : OfferType
  value : ℚ
  minOrderAmount : ℚ
  maxDiscountAmount : Option ℚ
  usageLimit : Option Int
  usageCount : Int
  userUsageLimit : Int
  isOneTimePerDevice : Bool
  claimedDevices : List ClaimEntry
  appliedToItems : List Nat
  deliveryTypes : List DeliveryType
  comboItems : List ComboItem
  comboPrice : ℚ
  isActive : Bool
  startDate : Int
  endDate : Int
  priority : Int
  createdAt : Int
  usageHistory : List UsageEntry
deriving DecidableEq

/-- JavaScript truthiness of the numeric field `maxDiscountAmount`:
falsy when absent (`undefined`) or equal to `0`. -/
def truthyAmount : Option ℚ → Bool
  | none => false
  | some v => v != 0

/-- `Math.round(x * 100) / 100`: rounding a monetary amount to 2 decimals.
Mathlib's `round` is `⌊x + 1/2⌋`, which agrees with JavaScript `Math.round`
on every rational input. -/
def round2 (q : ℚ) : ℚ := ((round (q * 100) : ℤ) : ℚ) / 100

/-- `offerSchema.methods.hasDeviceClaimed` (`src/models/offer.js:243`). -/
def hasDeviceClaimed (o : Offer) (deviceId : String) : Bool :=
  if !o.isOneTimePerDevice then false
  else o.claimedDevices.any fun c => c.deviceId == deviceId

/-- Outcome of `claimByDevice`: the method either returns `this` without
saving (`noop`), throws (`alreadyClaimedError`), or pushes a claim entry and
saves (`saved`). -/
inductive ClaimOutcome
  | noop (o : Offer)
  | alreadyClaimedError
  | saved (o : Offer)
deriving DecidableEq

/-- `offerSchema.methods.claimByDevice` (`src/models/offer.js:249`). -/
def claimByDevice (o : Offer) (deviceId : String) (userId : Option Nat)
    (now : Int) : ClaimOutcome :=
  if !o.isOneTimePerDevice then .noop o
  else if hasDeviceClaimed o deviceId then .alreadyClaimedError
  else .saved { o with
    claimedDevices := o.claimedDevices ++ [⟨deviceId, now, userId⟩] }

/-- The `isValid` virtual (`src/models/offer.js:200`), with the clock passed
explicitly. -/
def isValid (o : Offer) (now : Int) : Bool :=
  o.isActive && decide (o.startDate ≤ now) && decide (now ≤ o.endDate) &&
    (match o.usageLimit with
     | none => true
     | some l => decide (o.usageCount < l))

/-- One order line as passed to `calculateDiscount`. -/
structure OrderItem where
  foodItem : Nat
  quantity : Nat
  unitPrice : ℚ
deriving DecidableEq

/-- The `orderDetails` argument of `calculateDiscount`. -/
structure OrderDetails where
  subtotal : ℚ
  items : List OrderItem
  deliveryType : DeliveryType
deriving DecidableEq

/-- The two `reason` strings `calculateDiscount` can return:
`minOrderNotMet` stands for "Minimum order amount is $..." and
`deliveryTypeMismatch` for "Offer not valid for this delivery type". -/
inductive DiscountReason
  | minOrderNotMet
  | deliveryTypeMismatch
deriving DecidableEq

/-- Result of `calculateDiscount`: `{valid:false, reason}` or
`{valid:true, discount}`. -/
inductive DiscountResult
  | invalid (reason : DiscountReason)
  | valid (discount : ℚ)
deriving DecidableEq

/-- `offerSchema.methods.calculateDiscount` (`src/models/offer.js:292`).
The `switch` has cases for percentage, fixed-amount, free-delivery and
buy-one-get-one only; any other type (in particular `combo`) leaves the
discount at its initial value `0`. -/
def calculateDiscount (o : Offer) (od : OrderDetails) : DiscountResult :=
  if od.subtotal < o.minOrderAmount then .invalid .minOrderNotMet
  else if 0 < o.deliveryTypes.length && !o.deliveryTypes.contains od.deliveryType then
    .invalid .deliveryTypeMismatch
  else
    let discount : ℚ :=
      match o.offerType with
      | .percentage =>
          let raw := od.subtotal * o.value / 100
          if truthyAmount o.maxDiscountAmount &&
              decide (o.maxDiscountAmount.getD 0 < raw) then
            o.maxDiscountAmount.getD 0
          else raw
      | .fixedAmount => min o.value od.subtotal
      | .freeDelivery => 299 / 100
      | .buyOneGetOne =>
          if 0 < o.appliedToItems.length then
            ((od.items.filter fun it =>
                o.appliedToItems.any fun offerId => offerId == it.foodItem).map
              fun it => ((it.quantity / 2 : Nat) : ℚ) * it.unitPrice).sum
          else 0
      | .combo => 0
    .valid (round2 discount)

/-- `offerSchema.methods.applyToUser` (`src/models/offer.js:344`): pushes a
usage-history entry, increments `usageCount`, and pushes a claim entry when
the offer is one-time-per-device, a truthy device id was given and the device
had not claimed yet. -/
def applyToUser (o : Offer) (userId orderId : Nat) (discountAmount : ℚ)
    (platform : String) (deviceId : Option String) (now : Int) : Offer :=
  let o' := { o with
    usageHistory :=
      o.usageHistory ++ [⟨userId, orderId, deviceId, discountAmount, platform, now⟩]
    usageCount := o.usageCount + 1 }
  match deviceId with
  | some d =>
      if o'.isOneTimePerDevice && d != "" && !hasDeviceClaimed o' d then
        { o' with claimedDevices := o'.claimedDevices ++ [⟨d, now, some userId⟩] }
      else o'
  | none => o'

/-- `calculateItemDiscount` (`src/routes/offer.js:357`). -/
def calculateItemDiscount (originalPrice : ℚ) (o : Offer) (now : Int) : ℚ :=
  if !isValid o now then originalPrice
  else
    let discountedPrice : ℚ :=
      match o.offerType with
      | .percentage =>
          let p := originalPrice * (1 - o.value / 100)
          if truthyAmount o.maxDiscountAmount then
            max p (originalPrice - o.maxDiscountAmount.getD 0)
          else p
      | .fixedAmount => max 0 (originalPrice - o.value)
      | .buyOneGetOne => originalPrice / 2
      | _ => originalPrice
    round2 discountedPrice

/-- Accumulator of the best-offer loop in `GET /items-with-offers`
(`src/routes/offer.js:295`). -/
structure BestState where
  bestOffer : Option Offer
  bestDiscountedPrice : ℚ
  bestSavings : ℚ
deriving DecidableEq

/-- One iteration of the `itemOffers.forEach` loop
(`src/routes/offer.js:299`): strictly greater savings replace the current
best. -/
def selectStep (price : ℚ) (now : Int) (s : BestState) (o : Offer) : BestState :=
  let discountedPrice := calculateItemDiscount price o now
  let savings := price - discountedPrice
  if s.bestSavings < savings then ⟨some o, discountedPrice, savings⟩ else s

/-- The whole loop: starts from `(null, price, 0)` and folds over the offers
in their iteration order. -/
def selectBest (price : ℚ) (now : Int) (offers : List Offer) : BestState :=
  offers.foldl (selectStep price now) ⟨none, price, 0⟩

/-- Savings a single offer yields on an item, as the loop computes it. -/
def savingsOf (price : ℚ) (now : Int) (o : Offer) : ℚ :=
  price - calculateItemDiscount price o now

/-- The typed responses of `POST /offers/:id/claim`
(`src/routes/offer.js:179`); every branch is a JSON response, never a thrown
exception (the already-claimed case is checked before `claimByDevice` is
called). -/
inductive ClaimResponse
  | notValid
  | notOneTime
  | alreadyClaimed
  | success
deriving DecidableEq

/-- The claim route handler on a loaded offer document: the guard chain of
`src/routes/offer.js:203-225`, returning the response together with the
resulting offer state. -/
def claimRoute (o : Offer) (deviceId : String) (userId : Nat) (now : Int) :
    ClaimResponse × Offer :=
  if !isValid o now then (.notValid, o)
  else if !o.isOneTimePerDevice then (.notOneTime, o)
  else if hasDeviceClaimed o deviceId then (.alreadyClaimed, o)
  else
    match claimByDevice o deviceId (some userId) now with
    | .saved o' => (.success, o')
    | .noop o' => (.success, o')
    | .alreadyClaimedError => (.alreadyClaimed, o)

/-- State of one in-flight claim request: the offer snapshot it loaded with
`findById` (if it has read yet) and the response it produced (if it has
finished). -/
structure RaceReq where
  snapshot : Option Offer := none
  result : Option ClaimResponse := none
deriving DecidableEq

/-- Shared state of the store plus the in-flight requests. -/
structure RaceState where
  db : Offer
  reqs : List RaceReq
deriving DecidableEq

/-- A scheduling step: request `i` performs its `findById` read, or request
`i` runs the route body on its snapshot (checks on the snapshot, then — on
the success path — `claimByDevice`'s `save`, which pushes the new claim entry
onto the stored document). -/
inductive RaceStep
  | read (i : Nat)
  | process (i : Nat)

/-- Small-step semantics of `POST /offers/:id/claim` against a shared store:
`read` snapshots the current document; `process` evaluates the guard chain on
the snapshot and, when it succeeds, applies the array push to the current
stored document. -/
def raceStep (deviceId : String) (userId : Nat) (now : Int)
    (s : RaceState) (st : RaceStep) : RaceState :=
  match st with
  | .read i =>
      match s.reqs.get? i with
      | some r => { s with reqs := s.reqs.set i { r with snapshot := some s.db } }
      | none => s
  | .process i =>
      match s.reqs.get? i with
      | some r =>
          match r.snapshot with
          | some snap =>
              let resp := (claimRoute snap deviceId userId now).1
              let db' :=
                if resp = ClaimResponse.success then
                  { s.db with claimedDevices :=
                      s.db.claimedDevices ++ [⟨deviceId, now, some userId⟩] }
                else s.db
              { db := db', reqs := s.reqs.set i { r with result := some resp } }
          | none => s
      | none => s

/-- Run `n` claim requests for the same `(offer, deviceId)` under a given
interleaving. -/
def runRace (deviceId : String) (userId : Nat) (now : Int) (o : Offer)
    (n : Nat) (sched : List RaceStep) : RaceState :=
  sched.foldl (raceStep deviceId userId now) ⟨o, List.replicate n {}⟩

/-- How many requests finished with the given response. -/
def countResults (s : RaceState) (resp : ClaimResponse) : Nat :=
  (s.reqs.filter fun r => r.result == some resp).length

/-- A `PUT /offers/:id` request body, restricted to a representative set of
offer fields; a `some` value models a key present in `req.body`. -/
structure UpdateBody where
  title : Option String := none
  description : Option String := none
  value : Option ℚ := none
  minOrderAmount : Option ℚ := none
  isActive : Option Bool := none
  isOneTimePerDevice : Option Bool := none
  usageCount : Option Int := none
  usageLimit : Option (Option Int) := none
  claimedDevices : Option (List ClaimEntry) := none
  usageHistory : Option (List UsageEntry) := none
deriving DecidableEq

/-- The mass assignment of `PUT /offers/:id` (`src/routes/offer.js:614`):
`Object.keys(req.body).forEach(key => offer[key] = req.body[key])` — every
key present in the body is copied onto the document, the ledger fields
`usageCount`, `usageHistory` and `claimedDevices` included. -/
def updateOffer (o : Offer) (b : UpdateBody) : Offer :=
  { o with
    title := b.title.getD o.title
    description := b.description.getD o.description
    value := b.value.getD o.value
    minOrderAmount := b.minOrderAmount.getD o.minOrderAmount
    isActive := b.isActive.getD o.isActive
    isOneTimePerDevice := b.isOneTimePerDevice.getD o.isOneTimePerDevice
    usageCount := b.usageCount.getD o.usageCount
    usageLimit := b.usageLimit.getD o.usageLimit
    claimedDevices := b.claimedDevices.getD o.claimedDevices
    usageHistory := b.usageHistory.getD o.usageHistory }

/-- Modelled from the spec: the combo rule
`discount = max(0, Σ(individual prices of comboItems) − comboPrice)`, stated
from the spec's words for comparison with `calculateDiscount`, which has no
combo branch. -/
def specComboDiscount (itemPrices : List ℚ) (comboPrice : ℚ) : ℚ :=
  max 0 (itemPrices.sum - comboPrice)

/-- Modelled from the spec: the free-delivery rule
`discount = deliveryFee`, a caller-supplied fee, stated from the spec's words
for comparison with `calculateDiscount`, which takes no fee argument. -/
def specFreeDeliveryDiscount (deliveryFee : ℚ) : ℚ := deliveryFee

/-- A neutral offer used to build concrete instances in witnesses and
counterexamples. -/
def baseOffer : Offer where
  title := "Offer"
  description := "An offer"
  offerType := .percentage
  value := 10
  minOrderAmount := 0
  maxDiscountAmount := none
  usageLimit := none
  usageCount := 0
  userUsageLimit := 1
  isOneTimePerDevice := false
  claimedDevices := []
  appliedToItems := []
  deliveryTypes := []
  comboItems := []
  comboPrice := 0
  isActive := true
  startDate := 0
  endDate := 1000
  priority := 1
  createdAt := 0
  usageHistory := []

/-- Invariant tying the loop accumulator together: whenever a best offer is
recorded, `bestSavings` is exactly the savings that offer yields. -/
def LinkOK (price : ℚ) (now : Int) (s : BestState) : Prop :=
  ∀ x, s.bestOffer = some x → s.bestSavings = savingsOf price now x

/-- The argument tuple of one `applyToUser` call. -/
structure ApplyCall where
  userId : Nat
  orderId : Nat
  discountAmount : ℚ
  platform : String
  deviceId : Option String
  now : Int
deriving DecidableEq

/-- A usage recording guarded by the offer's own validity check, the guard
the callers of the engine evaluate (`isValid` / `canUserUse`) before
redeeming: the call is applied only when the offer is currently valid. -/
def guardedApply (o : Offer) (c : ApplyCall) : Offer :=
  if isValid o c.now then
    applyToUser o c.userId c.orderId c.discountAmount c.platform c.deviceId c.now
  else o

/-- A sequence of guarded usage recordings. -/
def guardedApplyList (o : Offer) (cs : List ApplyCall) : Offer :=
  cs.foldl guardedApply o

/-- A valid one-time-per-device offer with no claims yet. -/
def oneTimeOffer : Offer := { baseOffer with isOneTimePerDevice := true }

/-- Interleaving of 10 claim requests in which requests 0 and 1 both read the
offer before either writes, and requests 2–9 run strictly afterwards. -/
def racedSched : List RaceStep :=
  [.read 0, .read 1, .process 0, .process 1,
   .read 2, .process 2, .read 3, .process 3, .read 4, .process 4,
   .read 5, .process 5, .read 6, .process 6, .read 7, .process 7,
   .read 8, .process 8, .read 9, .process 9]

/-- A valid one-time-per-device offer already claimed by device `d1`. -/
def claimedOffer : Offer := { oneTimeOffer with claimedDevices := [⟨"d1", 0, none⟩] }

/-- A valid offer that is NOT one-time-per-device but whose `claimedDevices`
array nevertheless contains device `d1`. -/
def notOneTime : Offer := { baseOffer with claimedDevices := [⟨"d1", 0, none⟩] }

/-- An offer whose usage count has already reached its usage limit. -/
def cappedOffer : Offer := { baseOffer with
  usageLimit := some 1
  usageCount := 1 }

/-- An offer with a usage limit of 2 and no usage yet. -/
def limitTwoOffer : Offer := { baseOffer with usageLimit := some 2 }

/-- A 20%-off offer whose `maxDiscountAmount` is present but equal to `0`. -/
def pctZeroCap : Offer := { baseOffer with
  offerType := .percentage
  value := 20
  maxDiscountAmount := some 0 }

/-- A combo offer priced at 20. -/
def comboOffer : Offer := { baseOffer with
  offerType := .combo
  comboPrice := 20 }

/-- A free-delivery offer. -/
def fdOffer : Offer := { baseOffer with offerType := .freeDelivery }

/-- An offer whose minimum order is 50 and which is restricted to delivery. -/
def bothFail : Offer := { baseOffer with
  minOrderAmount := 50
  deliveryTypes := [.delivery] }

/-- A 10%-off offer with priority 1. -/
def offerA : Offer := { baseOffer with priority := 1 }

/-- A 10%-off offer with priority 5, otherwise identical to `offerA`. -/
def offerB : Offer := { baseOffer with priority := 5 }

/-! ## Helper lemmas -/

theorem round2_zero : round2 0 = 0 := by norm_num [round2]

theorem round2_fee : round2 (299 / 100) = 299 / 100 := by norm_num [round2]

theorem applyToUser_usageLimit (o : Offer) (userId orderId : Nat)
    (amt : ℚ) (p : String) (dev : Option String) (now : Int) :
    (applyToUser o userId orderId amt p dev now).usageLimit = o.usageLimit := by
  unfold applyToUser
  cases dev with
  | none => rfl
  | some d => dsimp only; split <;> rfl

theorem applyToUser_usageCount (o : Offer) (userId orderId : Nat)
    (amt : ℚ) (p : String) (dev : Option String) (now : Int) :
    (applyToUser o userId orderId amt p dev now).usageCount = o.usageCount + 1 := by
  unfold applyToUser
  cases dev with
  | none => rfl
  | some d => dsimp only; split <;> rfl

theorem isValid_count_lt (o : Offer) (now : Int) (L : Int)
    (hL : o.usageLimit = some L) (hv : isValid o now = true) :
    o.usageCount < L := by
  unfold isValid at hv
  rw [hL] at hv
  simp only [Bool.and_eq_true, decide_eq_true_eq] at hv
  exact hv.2

/-! ## C1 -/

/-- C1: REFUTED on the code as written.  The claim states that among any
N ≥ 10 concurrent or sequential claim calls for one `(offerId, deviceId)`
pair exactly one succeeds, the rest return AlreadyClaimed, and
`claimedDevices` ends with exactly one entry for that device.  Under the
interleaving `racedSched` — requests 0 and 1 both `findById` before either
saves — two of the ten requests succeed, only eight report AlreadyClaimed,
and the stored document ends with two claim entries for the device: the
route's read-check-write sequence is not atomic. -/
theorem claim_race_two_successes :
    countResults (runRace "dev" 1 5 oneTimeOffer 10 racedSched) .success = 2 ∧
    countResults (runRace "dev" 1 5 oneTimeOffer 10 racedSched) .alreadyClaimed = 8 ∧
    ((runRace "dev" 1 5 oneTimeOffer 10 racedSched).db.claimedDevices.filter
      fun c => c.deviceId == "dev").length = 2 := by decide

/-! ## C2 -/

/-- C2 counterexample: `applyToUser` increments `usageCount` with no cap
check, so a single call from the allowed state `usageCount = usageLimit`
pushes the counter past the limit. -/
theorem applyToUser_exceeds_cap :
    cappedOffer.usageLimit = some 1 ∧ cappedOffer.usageCount ≤ 1 ∧
    (applyToUser cappedOffer 3 4 0 "web" none 5).usageLimit = some 1 ∧
    ¬(applyToUser cappedOffer 3 4 0 "web" none 5).usageCount ≤ 1 := by decide

/-- C2 (amended): `applyToUser` preserves `usageCount ≤ usageLimit` only for
sequences of calls each made from a state where the offer is still valid
(`usageCount < usageLimit`), i.e. guarded by the `isValid` check the callers
perform; every guarded sequence keeps the counter within the limit. -/
theorem guardedApplyList_preserves_cap (cs : List ApplyCall) (o : Offer) (L : Int)
    (hL : o.usageLimit = some L) (hc : o.usageCount ≤ L) :
    (guardedApplyList o cs).usageLimit = some L ∧
    (guardedApplyList o cs).usageCount ≤ L := by
  induction cs generalizing o with
  | nil => exact ⟨hL, hc⟩
  | cons c rest ih =>
    have hstep : (guardedApply o c).usageLimit = some L ∧
        (guardedApply o c).usageCount ≤ L := by
      unfold guardedApply
      by_cases hv : isValid o c.now = true
      · rw [if_pos hv]
        refine ⟨by rw [applyToUser_usageLimit, hL], ?_⟩
        rw [applyToUser_usageCount]
        exact Int.add_one_le_iff.mpr (isValid_count_lt o c.now L hL hv)
      · rw [if_neg hv]; exact ⟨hL, hc⟩
    exact ih (guardedApply o c) hstep.1 hstep.2

/-- C2 witness: three guarded usage recordings against an offer with usage
limit 2 leave the counter at or below the limit. -/
theorem guardedApplyList_preserves_cap_witness :
    (guardedApplyList limitTwoOffer
        [⟨1, 1, 0, "web", none, 5⟩, ⟨2, 2, 0, "web", none, 5⟩,
         ⟨3, 3, 0, "web", none, 5⟩]).usageCount ≤ 2 :=
  (guardedApplyList_preserves_cap
    [⟨1, 1, 0, "web", none, 5⟩, ⟨2, 2, 0, "web", none, 5⟩, ⟨3, 3, 0, "web", none, 5⟩]
    limitTwoOffer 2 (by decide) (by decide)).2

/-! ## C5 -/

/-- C5 counterexample: a context that fails both the minimum-order and the
delivery-type check is reported as `minOrderNotMet`, not as the claimed
`deliveryTypeMismatch`: `calculateDiscount` tests the subtotal first. -/
theorem minOrder_reported_first_cex :
    (10 : ℚ) < bothFail.minOrderAmount ∧
    0 < bothFail.deliveryTypes.length ∧
    bothFail.deliveryTypes.contains DeliveryType.pickup = false ∧
    calculateDiscount bothFail ⟨10, [], .pickup⟩ = .invalid .minOrderNotMet ∧
    DiscountReason.minOrderNotMet ≠ DiscountReason.deliveryTypeMismatch := by decide

/-- C5 (amended): the minimum-order check precedes the delivery-type check:
every context with `subtotal < minOrderAmount` yields the `minOrderNotMet`
reason, whatever the delivery type. -/
theorem minOrder_checked_first (o : Offer) (od : OrderDetails)
    (h : od.subtotal < o.minOrderAmount) :
    calculateDiscount o od = .invalid .minOrderNotMet := by
  unfold calculateDiscount
  rw [if_pos h]

/-- C5 witness: the amended ordering at the concrete failing-both context. -/
theorem minOrder_checked_first_witness :
    calculateDiscount bothFail ⟨10, [], .pickup⟩ = .invalid .minOrderNotMet :=
  minOrder_checked_first bothFail ⟨10, [], .pickup⟩ (by decide)

/-! ## C8 -/

/-- C8: REFUTED on the code as written — the update route mass-assigns every
request-body key onto the document, so a body containing the ledger fields
`usageCount`, `claimedDevices` and `usageHistory` overwrites all three;
there is no allow-list. -/
theorem updateOffer_overwrites_ledger :
    (updateOffer { baseOffer with
        usageCount := 3
        claimedDevices := [⟨"d1", 0, none⟩]
        usageHistory := [⟨1, 2, none, 0, "web", 3⟩] }
      { usageCount := some 999
        claimedDevices := some []
        usageHistory := some [] }).usageCount = 999 ∧
    (updateOffer { baseOffer with
        usageCount := 3
        claimedDevices := [⟨"d1", 0, none⟩]
        usageHistory := [⟨1, 2, none, 0, "web", 3⟩] }
      { usageCount := some 999
        claimedDevices := some []
        usageHistory := some [] }).claimedDevices = [] ∧
    (updateOffer { baseOffer with
        usageCount := 3
        claimedDevices := [⟨"d1", 0, none⟩]
        usageHistory := [⟨1, 2, none, 0, "web", 3⟩] }
      { usageCount := some 999
        claimedDevices := some []
        usageHistory := some [] }).usageHistory = [] := by decide

/-! ## C3 -/

/-- C3 counterexample: a combo offer whose combo-item prices sum to 30 with
combo price 20 should, by the claim, yield the positive savings 10; the
code's `calculateDiscount` has no combo branch and returns a discount of 0. -/
theorem combo_discount_not_spec_cex :
    calculateDiscount comboOffer ⟨50, [], .delivery⟩ = .valid 0 ∧
    specComboDiscount [30] comboOffer.comboPrice = 10 ∧
    DiscountResult.valid 0 ≠
      DiscountResult.valid (specComboDiscount [30] comboOffer.comboPrice) := by
  refine ⟨?_, by norm_num [specComboDiscount, comboOffer, baseOffer], ?_⟩
  · norm_num [calculateDiscount, round2, comboOffer, baseOffer]
  · norm_num [specComboDiscount, comboOffer, baseOffer]

/-- C3 (amended): `calculateDiscount` has no combo case, so for every combo
offer passing the minimum-order and delivery-type guards the discount is 0 —
which coincides with `max(0, S − P)` when S ≤ P (e.g. S = 18, P = 20) but
not when S > P. -/
theorem combo_discount_always_zero (o : Offer) (od : OrderDetails)
    (hty : o.offerType = .combo)
    (hmin : o.minOrderAmount ≤ od.subtotal)
    (hdel : o.deliveryTypes = [] ∨ od.deliveryType ∈ o.deliveryTypes) :
    calculateDiscount o od = .valid 0 := by
  unfold calculateDiscount
  rw [if_neg (not_lt.mpr hmin)]
  have hcond : (0 < o.deliveryTypes.length &&
      !o.deliveryTypes.contains od.deliveryType) = false := by
    rcases hdel with h | h
    · simp [h]
    · simp [h]
  rw [hcond]
  simp [hty, round2_zero]

/-- C3 witness: the amended statement at S = 18, P = 20 (the spec's own
example input, where the two readings agree on a zero discount). -/
theorem combo_discount_always_zero_witness :
    calculateDiscount comboOffer ⟨18, [], .delivery⟩ = .valid 0 :=
  combo_discount_always_zero comboOffer ⟨18, [], .delivery⟩ rfl (by decide)
    (Or.inl rfl)

/-! ## C4 -/

/-- C4 counterexample: `calculateDiscount` accepts no delivery-fee argument;
for a free-delivery offer it returns the hardcoded constant 2.99, which
differs from a caller's fee of 5 that the claim says would be returned. -/
theorem freeDelivery_not_caller_fee_cex :
    calculateDiscount fdOffer ⟨50, [], .delivery⟩ = .valid (299 / 100) ∧
    specFreeDeliveryDiscount 5 = 5 ∧
    DiscountResult.valid (299 / 100) ≠
      DiscountResult.valid (specFreeDeliveryDiscount 5) := by
  refine ⟨?_, rfl, ?_⟩
  · norm_num [calculateDiscount, round2, fdOffer, baseOffer]
  · norm_num [specFreeDeliveryDiscount]

/-- C4 (amended): for every free-delivery offer passing the guards the
discount is the constant 2.99 hardcoded in `calculateDiscount`, independent
of any delivery fee the caller may hold. -/
theorem freeDelivery_hardcoded (o : Offer) (od : OrderDetails)
    (hty : o.offerType = .freeDelivery)
    (hmin : o.minOrderAmount ≤ od.subtotal)
    (hdel : o.deliveryTypes = [] ∨ od.deliveryType ∈ o.deliveryTypes) :
    calculateDiscount o od = .valid (299 / 100) := by
  unfold calculateDiscount
  rw [if_neg (not_lt.mpr hmin)]
  have hcond : (0 < o.deliveryTypes.length &&
      !o.deliveryTypes.contains od.deliveryType) = false := by
    rcases hdel with h | h
    · simp [h]
    · simp [h]
  rw [hcond]
  simp [hty, round2_fee]

/-- C4 witness: the hardcoded free-delivery discount at a concrete order. -/
theorem freeDelivery_hardcoded_witness :
    calculateDiscount fdOffer ⟨50, [], .delivery⟩ = .valid (299 / 100) :=
  freeDelivery_hardcoded fdOffer ⟨50, [], .delivery⟩ rfl (by decide) (Or.inl rfl)

/-! ## C6 -/

theorem selectStep_eq (price : ℚ) (now : Int) (s : BestState) (o : Offer) :
    selectStep price now s o =
      if s.bestSavings < savingsOf price now o then
        ⟨some o, calculateItemDiscount price o now, savingsOf price now o⟩
      else s := rfl

theorem selectStep_mono (price : ℚ) (now : Int) (s : BestState) (o : Offer) :
    s.bestSavings ≤ (selectStep price now s o).bestSavings := by
  rw [selectStep_eq]
  split
  · exact le_of_lt (by assumption)
  · exact le_refl _

theorem foldl_selectStep_mono (price : ℚ) (now : Int) :
    ∀ (offers : List Offer) (s : BestState),
      s.bestSavings ≤ (offers.foldl (selectStep price now) s).bestSavings := by
  intro offers
  induction offers with
  | nil => intro s; exact le_refl _
  | cons hd t ih =>
    intro s
    rw [List.foldl_cons]
    exact le_trans (selectStep_mono price now s hd) (ih _)

theorem foldl_selectStep_dominates (price : ℚ) (now : Int) :
    ∀ (offers : List Offer) (s : BestState) (o : Offer), o ∈ offers →
      savingsOf price now o ≤ (offers.foldl (selectStep price now) s).bestSavings := by
  intro offers
  induction offers with
  | nil => intro s o h; cases h
  | cons hd t ih =>
    intro s o hmem
    rw [List.foldl_cons]
    rcases List.mem_cons.mp hmem with rfl | hmem'
    · have h1 : savingsOf price now o ≤ (selectStep price now s o).bestSavings := by
        rw [selectStep_eq]
        split
        · exact le_refl _
        · exact le_of_not_lt (by assumption)
      exact le_trans h1 (foldl_selectStep_mono price now t _)
    · exact ih _ o hmem'

theorem selectStep_link (price : ℚ) (now : Int) (s : BestState) (o : Offer)
    (h : LinkOK price now s) : LinkOK price now (selectStep price now s o) := by
  intro x hx
  rw [selectStep_eq] at hx ⊢
  by_cases hc : s.bestSavings < savingsOf price now o
  · rw [if_pos hc] at hx ⊢
    cases hx
    rfl
  · rw [if_neg hc] at hx ⊢
    exact h x hx

theorem foldl_selectStep_link (price : ℚ) (now : Int) :
    ∀ (offers : List Offer) (s : BestState), LinkOK price now s →
      LinkOK price now (offers.foldl (selectStep price now) s) := by
  intro offers
  induction offers with
  | nil => intro s h; exact h
  | cons hd t ih =>
    intro s h
    rw [List.foldl_cons]
    exact ih _ (selectStep_link price now s hd h)

theorem foldl_selectStep_first (price : ℚ) (now : Int) :
    ∀ (offers : List Offer) (s : BestState) (o : Offer),
      0 ≤ s.bestSavings →
      (offers.foldl (selectStep price now) s).bestOffer = some o →
      (s.bestOffer = some o ∧
        (offers.foldl (selectStep price now) s).bestSavings = s.bestSavings) ∨
      (s.bestSavings < savingsOf price now o ∧
        offers.find? (fun o' =>
          decide (savingsOf price now o ≤ savingsOf price now o')) = some o) := by
  intro offers
  induction offers with
  | nil =>
    intro s o h0 hfin
    exact Or.inl ⟨hfin, rfl⟩
  | cons hd t ih =>
    intro s o h0 hfin
    rw [List.foldl_cons, selectStep_eq] at hfin
    by_cases hc : s.bestSavings < savingsOf price now hd
    · rw [if_pos hc] at hfin
      have h0' : (0 : ℚ) ≤ savingsOf price now hd := le_trans h0 (le_of_lt hc)
      rcases ih _ o h0' hfin with ⟨hbo, _⟩ | ⟨hlt, hfind⟩
      · have hdo : hd = o := by
          simpa using hbo
        subst hdo
        refine Or.inr ⟨hc, ?_⟩
        exact List.find?_cons_of_pos _ (by simp)
      · refine Or.inr ⟨lt_trans hc hlt, ?_⟩
        rw [List.find?_cons_of_neg _ (by simp [not_le.mpr hlt])]
        exact hfind
    · rw [if_neg hc] at hfin
      rcases ih s o h0 hfin with ⟨hbo, hbs⟩ | ⟨hlt, hfind⟩
      · refine Or.inl ⟨hbo, ?_⟩
        rw [List.foldl_cons, selectStep_eq, if_neg hc]
        exact hbs
      · refine Or.inr ⟨hlt, ?_⟩
        have hnot : ¬savingsOf price now o ≤ savingsOf price now hd :=
          not_le.mpr (lt_of_le_of_lt (not_lt.mp hc) hlt)
        rw [List.find?_cons_of_neg _ (by simp [hnot])]
        exact hfind

/-- C6 counterexample: two valid offers yielding the same savings 10 on a
100-priced item; the loop keeps whichever comes first in iteration order, so
with the higher-priority `offerB` listed second the lower-priority `offerA`
wins, and reversing the input reverses the winner — the selection has no
priority tie-break and is not order-independent. -/
theorem selectBest_ignores_priority_cex :
    savingsOf 100 5 offerA = savingsOf 100 5 offerB ∧
    offerA.priority < offerB.priority ∧
    (selectBest 100 5 [offerA, offerB]).bestOffer = some offerA ∧
    (selectBest 100 5 [offerB, offerA]).bestOffer = some offerB ∧
    offerA ≠ offerB := by
  refine ⟨by norm_num [savingsOf, calculateItemDiscount, isValid, truthyAmount,
      round2, offerA, offerB, baseOffer], by decide, ?_, ?_, by decide⟩
  · norm_num [selectBest, selectStep, savingsOf, calculateItemDiscount, isValid,
      truthyAmount, round2, offerA, offerB, baseOffer, List.foldl]
  · norm_num [selectBest, selectStep, savingsOf, calculateItemDiscount, isValid,
      truthyAmount, round2, offerA, offerB, baseOffer, List.foldl]

/-- C6 (amended): the items-with-offers loop selects the first offer in
iteration order attaining the maximum savings, and only when that maximum is
positive: the selected offer is a member of the list, its savings are
positive and dominate every offer in the list, and it is the first list
element whose savings reach that maximum — equal-savings ties are broken by
input position, not by `priority` or `createdAt`, so the outcome depends on
the iteration order of the input. -/
theorem selectBest_first_max (price : ℚ) (now : Int) (offers : List Offer)
    (o : Offer) (hsel : (selectBest price now offers).bestOffer = some o) :
    o ∈ offers ∧ 0 < savingsOf price now o ∧
    (∀ o' ∈ offers, savingsOf price now o' ≤ savingsOf price now o) ∧
    offers.find? (fun o' =>
      decide (savingsOf price now o ≤ savingsOf price now o')) = some o := by
  unfold selectBest at hsel
  rcases foldl_selectStep_first price now offers ⟨none, price, 0⟩ o
      (le_refl 0) hsel with ⟨hbo, _⟩ | ⟨hpos, hfind⟩
  · cases hbo
  · have hmem : o ∈ offers := List.mem_of_find?_eq_some hfind
    refine ⟨hmem, hpos, ?_, hfind⟩
    intro o' ho'
    have hdom := foldl_selectStep_dominates price now offers ⟨none, price, 0⟩ o' ho'
    have hlink := foldl_selectStep_link price now offers ⟨none, price, 0⟩
      (fun x hx => by cases hx) o hsel
    rw [hlink] at hdom
    exact hdom

/-- C6 witness: the amended selection at the two-offer tie. -/
theorem selectBest_first_max_witness :
    offerA ∈ [offerA, offerB] ∧ 0 < savingsOf 100 5 offerA ∧
    savingsOf 100 5 offerB ≤ savingsOf 100 5 offerA :=
  have h := selectBest_first_max 100 5 [offerA, offerB] offerA
    (by norm_num [selectBest, selectStep, savingsOf, calculateItemDiscount,
      isValid, truthyAmount, round2, offerA, offerB, baseOffer, List.foldl])
  ⟨h.1, h.2.1, h.2.2.1 offerB (by simp)⟩

/-! ## C7 -/

/-- C7 counterexample: an offer that is valid and has device `d1` in
`claimedDevices` but is not one-time-per-device makes the claim route answer
with the not-one-time error, not with AlreadyClaimed — though the ledger is
still left unchanged. -/
theorem claimRoute_notOneTime_cex :
    (notOneTime.claimedDevices.any fun c => c.deviceId == "d1") = true ∧
    claimRoute notOneTime "d1" 7 5 = (.notOneTime, notOneTime) ∧
    ClaimResponse.notOneTime ≠ ClaimResponse.alreadyClaimed := by decide

/-- C7 (amended): whenever the device is already listed in `claimedDevices`,
the claim route leaves the offer (in particular `claimedDevices`) unchanged;
and when the offer is moreover valid and one-time-per-device, the response is
the typed AlreadyClaimed outcome. -/
theorem claimRoute_already_claimed (o : Offer) (d : String) (u : Nat)
    (now : Int)
    (hpresent : (o.claimedDevices.any fun c => c.deviceId == d) = true) :
    (claimRoute o d u now).2 = o ∧
    (isValid o now = true → o.isOneTimePerDevice = true →
      claimRoute o d u now = (.alreadyClaimed, o)) := by
  have hclaim : o.isOneTimePerDevice = true → hasDeviceClaimed o d = true := by
    intro h1
    unfold hasDeviceClaimed
    rw [h1]
    simpa using hpresent
  constructor
  · unfold claimRoute
    cases hv : isValid o now with
    | false => simp
    | true =>
      cases hot : o.isOneTimePerDevice with
      | false => simp
      | true => simp [hclaim hot]
  · intro hv hot
    unfold claimRoute
    simp [hv, hot, hclaim hot]

/-- C7 witness: retrying the claim of `d1` on a valid, already-claimed
one-time offer returns AlreadyClaimed and leaves the offer unchanged. -/
theorem claimRoute_already_claimed_witness :
    claimRoute claimedOffer "d1" 7 5 = (.alreadyClaimed, claimedOffer) :=
  (claimRoute_already_claimed claimedOffer "d1" 7 5 (by decide)).2
    (by decide) (by decide)

/-! ## C9 -/

/-- C9: a percentage offer whose `maxDiscountAmount` is present but `0` is
never capped: `maxDiscountAmount` is tested for JavaScript truthiness, and 0
is falsy, so both `calculateDiscount` and `calculateItemDiscount` return the
plain rounded percentage discount. -/
theorem percentage_zero_cap_uncapped (o : Offer)
    (hty : o.offerType = .percentage)
    (hcap : o.maxDiscountAmount = some 0) :
    (∀ od : OrderDetails, o.minOrderAmount ≤ od.subtotal →
      (o.deliveryTypes = [] ∨ od.deliveryType ∈ o.deliveryTypes) →
      calculateDiscount o od = .valid (round2 (od.subtotal * o.value / 100))) ∧
    (∀ (price : ℚ) (now : Int), isValid o now = true →
      calculateItemDiscount price o now = round2 (price * (1 - o.value / 100))) := by
  constructor
  · intro od hmin hdel
    unfold calculateDiscount
    rw [if_neg (not_lt.mpr hmin)]
    have hcond : (0 < o.deliveryTypes.length &&
        !o.deliveryTypes.contains od.deliveryType) = false := by
      rcases hdel with h | h
      · simp [h]
      · simp [h]
    rw [hcond]
    simp [hty, hcap, truthyAmount]
  · intro price now hv
    unfold calculateItemDiscount
    simp [hv, hty, hcap, truthyAmount]

/-- C9 witness: subtotal 30 at 20% with a zero `maxDiscountAmount` gives the
full 6.00, and a 100-priced item is discounted to 80, uncapped. -/
theorem percentage_zero_cap_uncapped_witness :
    calculateDiscount pctZeroCap ⟨30, [], .delivery⟩ =
      .valid (round2 (30 * pctZeroCap.value / 100)) ∧
    calculateItemDiscount 100 pctZeroCap 5 =
      round2 (100 * (1 - pctZeroCap.value / 100)) :=
  ⟨(percentage_zero_cap_uncapped pctZeroCap rfl rfl).1 ⟨30, [], .delivery⟩
      (by decide) (Or.inl rfl),
   (percentage_zero_cap_uncapped pctZeroCap rfl rfl).2 100 5 (by decide)⟩

/-! ## C10 -/

/-- C10: for every offer with `isOneTimePerDevice = false`,
`hasDeviceClaimed` returns `false` for every device — even one listed in
`claimedDevices` — and `claimByDevice` is a no-op returning the offer
unchanged without saving. -/
theorem notOneTimePerDevice_noop (o : Offer) (d : String) (u : Option Nat)
    (now : Int) (h : o.isOneTimePerDevice = false) :
    hasDeviceClaimed o d = false ∧ claimByDevice o d u now = .noop o := by
  constructor
  · unfold hasDeviceClaimed
    rw [h]
    rfl
  · unfold claimByDevice
    rw [h]
    rfl

/-- C10 witness: a non-one-time offer whose `claimedDevices` contains `d1`
still reports `d1` as unclaimed, and claiming is a no-op. -/
theorem notOneTimePerDevice_noop_witness :
    (notOneTime.claimedDevices.any fun c => c.deviceId == "d1") = true ∧
    hasDeviceClaimed notOneTime "d1" = false ∧
    claimByDevice notOneTime "d1" none 5 = .noop notOneTime :=
  ⟨by decide, notOneTimePerDevice_noop notOneTime "d1" none 5 (by decide)⟩

end Saborly
